import Mathlib

/-!
Verification development for the LiDAR scanner addon.

The embedding models the scan pipeline of `scanner_core.py`, the preset
application of `properties.py` / `presets.py`, the animation sweep of
`operators.py` and the point-cloud encoders of `export_utils.py`.
Numeric settings values are embedded as exact rationals; measurement-model
quantities that flow through transcendental host-math functions
(`math.exp`, `math.sqrt`, trigonometry) are embedded as real numbers.
External collaborators (the scene ray-cast service, the scanner pose, the
random number generator and the host float formatter) are parameters of
the corresponding definitions.
-/

namespace LidarScan

/-- Noise distribution kind (`properties.py` `noise_type` enum). -/
inductive NoiseType
  | gaussian
  | uniform
  | rayleigh
deriving DecidableEq, Repr

/-- Intensity falloff kind (`properties.py` `intensity_falloff` enum). -/
inductive Falloff
  | linear
  | quadratic
  | none
deriving DecidableEq, Repr

/-- The scanner settings fields of `LiDARScannerSettings` (`properties.py`)
that the scan pipeline reads.  Numeric fields are exact rationals. -/
structure Settings where
  fov_h : ℚ
  fov_v : ℚ
  resolution_h : ℚ
  resolution_v : ℚ
  range_min : ℚ
  range_max : ℚ
  enable_noise : Bool
  noise_type : NoiseType
  range_sigma_m : ℚ
  angular_noise_deg : ℚ
  dropout_prob : ℚ
  enable_intensity : Bool
  intensity_falloff : Falloff
  enable_multi_return : Bool
  max_returns : ℤ
  enable_animation : Bool
  frame_start : ℤ
  frame_end : ℤ
  frame_step : ℤ
  rotations_per_second : ℚ
  enable_weather : Bool
  rain_rate : ℚ
  fog_density : ℚ
deriving DecidableEq, Repr

/-- The default values declared on the properties (`properties.py`). -/
def defaultSettings : Settings where
  fov_h := 360
  fov_v := 30
  resolution_h := 0.2
  resolution_v := 1
  range_min := 0.1
  range_max := 100
  enable_noise := true
  noise_type := .gaussian
  range_sigma_m := 0.02
  angular_noise_deg := 0.01
  dropout_prob := 0.02
  enable_intensity := true
  intensity_falloff := .quadratic
  enable_multi_return := false
  max_returns := 2
  enable_animation := false
  frame_start := 1
  frame_end := 250
  frame_step := 1
  rotations_per_second := 10
  enable_weather := false
  rain_rate := 0
  fog_density := 0

/-- Clamp a value into `[lo, hi]`, the way a Blender `FloatProperty` with
`min`/`max` clamps at assignment. -/
def clampQ (lo hi v : ℚ) : ℚ := max lo (min hi v)

/-- Assign `fov_h`; the property clamps to `[1, 360]` (`properties.py:62`). -/
def setFovH (s : Settings) (v : ℚ) : Settings := { s with fov_h := clampQ 1 360 v }

/-- Assign `fov_v`; the property clamps to `[1, 90]` (`properties.py:71`). -/
def setFovV (s : Settings) (v : ℚ) : Settings := { s with fov_v := clampQ 1 90 v }

/-- Assign `resolution_h`; clamps to `[0.01, 5]` (`properties.py:81`). -/
def setResH (s : Settings) (v : ℚ) : Settings :=
  { s with resolution_h := clampQ 0.01 5 v }

/-- Assign `resolution_v`; clamps to `[0.01, 5]` (`properties.py:90`). -/
def setResV (s : Settings) (v : ℚ) : Settings :=
  { s with resolution_v := clampQ 0.01 5 v }

/-- Assign `range_min`; clamps to `[0, 500]` (`properties.py:100`). -/
def setRangeMin (s : Settings) (v : ℚ) : Settings :=
  { s with range_min := clampQ 0 500 v }

/-- Assign `range_max`; clamps to `[0.1, 500]` (`properties.py:109`). -/
def setRangeMax (s : Settings) (v : ℚ) : Settings :=
  { s with range_max := clampQ 0.1 500 v }

/-- Assign `range_sigma_m`; clamps to `[0, 0.5]` (`properties.py:136`). -/
def setRangeSigma (s : Settings) (v : ℚ) : Settings :=
  { s with range_sigma_m := clampQ 0 0.5 v }

/-- Assign `rotations_per_second`; clamps to `[0.1, 100]` (`properties.py:224`). -/
def setRotationsPerSecond (s : Settings) (v : ℚ) : Settings :=
  { s with rotations_per_second := clampQ 0.1 100 v }

/-- Model of `apply_preset` from `properties.py:379`: the update callback of the
`sensor_preset` enum.  It iterates the preset dict in insertion order
(`fov_h`, `fov_v`, `resolution_h`, `resolution_v`, `range_max`) and each
`setattr` goes through the property clamp. -/
def applyPreset (s : Settings) (preset : String) : Settings :=
  if preset = "VELODYNE_VLP16" then
    setRangeMax (setResV (setResH (setFovV (setFovH s 360) 30) 0.2) 2) 100
  else if preset = "VELODYNE_HDL32" then
    setRangeMax (setResV (setResH (setFovV (setFovH s 360) 41.33) 0.16) 1.33) 100
  else if preset = "VELODYNE_HDL64" then
    setRangeMax (setResV (setResH (setFovV (setFovH s 360) 26.8) 0.08) 0.4) 120
  else if preset = "OUSTER_OS1_32" then
    setRangeMax (setResV (setResH (setFovV (setFovH s 360) 45) 0.35) 1.4) 120
  else if preset = "OUSTER_OS1_64" then
    setRangeMax (setResV (setResH (setFovV (setFovH s 360) 45) 0.35) 0.7) 120
  else if preset = "LIVOX_MID40" then
    setRangeMax (setResV (setResH (setFovV (setFovH s 38.4) 38.4) 0.05) 0.05) 260
  else if preset = "GENERIC_32" then
    setRangeMax (setResV (setResH (setFovV (setFovH s 360) 40) 0.2) 1.25) 100
  else if preset = "GENERIC_64" then
    setRangeMax (setResV (setResH (setFovV (setFovH s 360) 26.8) 0.1) 0.42) 120
  else s

/-- Model of `apply_preset_to_settings` from `presets.py:403` (no caller in the
repository; the live preset path is `applyPreset` above).  It assigns, in
source order, `fov_h`, `fov_v`, `resolution_h`, `resolution_v`,
`range_min`, `range_max`, `rotations_per_second`, `range_sigma_m` from the
`SENSOR_PRESETS` catalog; the `VELODYNE_VLP16` entry there carries
`resolution_h = 0.1`. -/
def applyPresetToSettings (s : Settings) (preset : String) : Settings :=
  if preset = "VELODYNE_VLP16" then
    setRangeSigma (setRotationsPerSecond (setRangeMax (setRangeMin
      (setResV (setResH (setFovV (setFovH s 360) 30) 0.1) 2) 0.5) 100) 5) 0.03
  else s

/-- Python `int()` applied to a rational: truncation toward zero. -/
def truncQ (q : ℚ) : ℤ := if 0 ≤ q then ⌊q⌋ else ⌈q⌉

/-- Horizontal resolution after the in-function guard
`res_h = max(0.01, settings.resolution_h)` (`scanner_core.py:52`). -/
def guardResH (s : Settings) : ℚ := max 0.01 s.resolution_h

/-- Vertical resolution after `res_v = max(0.01, settings.resolution_v)`
(`scanner_core.py:53`). -/
def guardResV (s : Settings) : ℚ := max 0.01 s.resolution_v

/-- The step count `h_steps = int(fov_h / res_h)` (`scanner_core.py:55`). -/
def hSteps (s : Settings) : ℤ := truncQ (s.fov_h / guardResH s)

/-- The step count `v_steps = int(fov_v / res_v)` (`scanner_core.py:56`). -/
def vSteps (s : Settings) : ℤ := truncQ (s.fov_v / guardResV s)

/-- The horizontal sample angles `h_start + h_idx * res_h` for
`h_idx in range(h_steps + 1)` (`scanner_core.py:58,62,63`). -/
def hAngles (s : Settings) : List ℚ :=
  (List.range (hSteps s + 1).toNat).map
    (fun i : ℕ => -s.fov_h / 2 + (i : ℚ) * guardResH s)

/-- The vertical sample angles `v_start + v_idx * res_v` for
`v_idx in range(v_steps + 1)` (`scanner_core.py:59,61,64`). -/
def vAngles (s : Settings) : List ℚ :=
  (List.range (vSteps s + 1).toNat).map
    (fun i : ℕ => -s.fov_v / 2 + (i : ℚ) * guardResV s)

/-- The ordered `(angle_h, angle_v)` grid of `generate_ray_directions`:
vertical outer loop, horizontal inner loop (`scanner_core.py:61-64`). -/
def angleGrid (s : Settings) : List (ℚ × ℚ) :=
  (vAngles s).flatMap (fun av => (hAngles s).map (fun ah => (ah, av)))

/-- Python `range(start, stop, step)` for a positive step, as a list. -/
def pyRange (start stop step : ℤ) : List ℤ :=
  (List.range ((stop - start + step - 1).fdiv step).toNat).map
    (fun i => start + step * i)

/-- The frames visited by `LIDAR_OT_scan_animation.execute`:
`range(frame_start, frame_end + 1, frame_step)` (`operators.py:214`). -/
def animFrames (s : Settings) : List ℤ :=
  pyRange s.frame_start (s.frame_end + 1) s.frame_step

/-- Outcome of an animation sweep: the frames set via `frame_set` in order,
the frame the scene is left on, and whether the loop ran to completion. -/
structure AnimRun where
  visited : List ℤ
  finalFrame : ℤ
  ok : Bool
deriving DecidableEq, Repr

/-- The frame-visiting control flow of `LIDAR_OT_scan_animation.execute`
(`operators.py:212-222`): for each frame, `frame_set(frame)` then
`scanner.scan()`.  `fails f = true` models the scan (or export) of frame
`f` raising an exception; the loop has no `try`/`finally`, so the
exception propagates and the trailing `frame_set(original_frame)` at
`operators.py:222` is skipped, leaving the scene on the failing frame. -/
def runAnimation (frames : List ℤ) (orig : ℤ) (fails : ℤ → Bool) : AnimRun :=
  match frames with
  | [] => ⟨[], orig, true⟩
  | f :: rest =>
    if fails f then ⟨[f], f, false⟩
    else
      let r := runAnimation rest orig fails
      ⟨f :: r.visited, r.finalFrame, r.ok⟩

/-- The PLY ASCII header property names, in declaration order
(`export_utils.py:42-58`). -/
def plyAsciiProps (normals intensity labels : Bool) : List String :=
  ["x", "y", "z"]
    ++ (if normals then ["nx", "ny", "nz"] else [])
    ++ (if intensity then ["intensity", "distance"] else [])
    ++ (if labels then ["red", "green", "blue"] else [])

/-- The binary-little-endian PLY header property names, in declaration
order (`export_utils.py:95-106`): the intensity group contributes only
`intensity`, with no `distance` property. -/
def plyBinaryProps (normals intensity : Bool) : List String :=
  ["x", "y", "z"]
    ++ (if normals then ["nx", "ny", "nz"] else [])
    ++ (if intensity then ["intensity"] else [])

noncomputable section

open scoped Classical

/-- A 3-component vector with real components (`mathutils.Vector`). -/
structure Vec3 where
  x : ℝ
  y : ℝ
  z : ℝ

/-- Component-wise vector difference. -/
def sub3 (a b : Vec3) : Vec3 := ⟨a.x - b.x, a.y - b.y, a.z - b.z⟩

/-- Component-wise vector sum. -/
def add3 (a b : Vec3) : Vec3 := ⟨a.x + b.x, a.y + b.y, a.z + b.z⟩

/-- Scalar multiple of a vector. -/
def smul3 (c : ℝ) (v : Vec3) : Vec3 := ⟨c * v.x, c * v.y, c * v.z⟩

/-- Vector negation (`-v`). -/
def neg3 (v : Vec3) : Vec3 := ⟨-v.x, -v.y, -v.z⟩

/-- Dot product (`Vector.dot`). -/
def dot3 (a b : Vec3) : ℝ := a.x * b.x + a.y * b.y + a.z * b.z

/-- Euclidean length (`Vector.length`). -/
def norm3 (v : Vec3) : ℝ := Real.sqrt (v.x ^ 2 + v.y ^ 2 + v.z ^ 2)

/-- Model of `Vector.normalized()`: scale to unit length; the zero vector is
returned unchanged. -/
def normalize3 (v : Vec3) : Vec3 :=
  if norm3 v = 0 then v else ⟨v.x / norm3 v, v.y / norm3 v, v.z / norm3 v⟩

/-- Degrees to radians (`math.radians`). -/
def deg2rad (q : ℚ) : ℝ := (q : ℝ) * Real.pi / 180

/-- The local unit direction for a `(angle_h, angle_v)` sample:
`x = cos(v)·sin(h)`, `y = cos(v)·cos(h)`, `z = sin(v)`, then
`.normalized()` (`scanner_core.py:66-73`). -/
def dirVec (ah av : ℚ) : Vec3 :=
  normalize3
    ⟨Real.cos (deg2rad av) * Real.sin (deg2rad ah),
     Real.cos (deg2rad av) * Real.cos (deg2rad ah),
     Real.sin (deg2rad av)⟩

/-- Model of `generate_ray_directions` (`scanner_core.py:46-76`): the ordered list
of `(angle_h, angle_v, direction)` tuples. -/
def rayDirections (s : Settings) : List (ℚ × ℚ × Vec3) :=
  (angleGrid s).map (fun p => (p.1, p.2, dirVec p.1 p.2))

/-- One scan point (`ScanPoint.__init__`, `scanner_core.py:10-26`). -/
structure ScanPoint where
  position : Vec3
  distance : ℝ
  intensity : ℝ
  normal : Vec3
  object_name : String
  category_id : String
  return_number : ℤ
  angle_h : ℚ
  angle_v : ℚ

/-- The data the external scene ray-cast service reports for a hit
(`bpy.context.scene.ray_cast`, plus the material / custom-property data
read by `calculate_intensity` and `get_category_id`): hit location,
surface normal, whether a Principled-BSDF material was found on the hit
object, that material's base color, the object name, and the
`categoryID` / `category_id` custom property when present. -/
structure HitInfo where
  location : Vec3
  normal : Vec3
  hasMaterial : Bool
  baseColor : ℝ × ℝ × ℝ
  objName : String
  categoryProp : Option String

/-- One ray's worth of draws from the host random number generator.  The
angular-jitter Euler rotation of `apply_noise_to_direction`
(`scanner_core.py:97-111`) is abstracted as the function `jitter` (it is
a random rotation applied to the direction, then normalized). -/
structure Draws where
  jitter : Vec3 → Vec3
  gaussRange : ℝ
  uniformRange : ℝ
  rayleigh1 : ℝ
  rayleigh2 : ℝ
  signDraw : ℝ
  dropoutDraw : ℝ
  rainHitDraw : ℝ
  rainFactor : ℝ

/-- Model of `apply_noise_to_distance` (`scanner_core.py:78-95`): returns the
distance unchanged when noise is disabled; otherwise adds the draw of the
configured distribution and floors the result at zero. -/
def applyNoiseToDistance (s : Settings) (dw : Draws) (d : ℝ) : ℝ :=
  if s.enable_noise = false then d
  else
    let noise : ℝ :=
      match s.noise_type with
      | .gaussian => dw.gaussRange
      | .uniform => dw.uniformRange
      | .rayleigh =>
          Real.sqrt (dw.rayleigh1 ^ 2 + dw.rayleigh2 ^ 2) *
            (if dw.signDraw > 0.5 then 1 else -1)
    max 0 (d + noise)

/-- Model of `should_dropout` (`scanner_core.py:113-117`): `False` when noise is
disabled, else one Bernoulli trial `random.random() < dropout_prob`. -/
def shouldDropout (s : Settings) (dw : Draws) : Prop :=
  s.enable_noise = true ∧ dw.dropoutDraw < (s.dropout_prob : ℝ)

/-- The grayscale luminance of a Principled-BSDF base color
(`scanner_core.py:131`). -/
def luminance (c : ℝ × ℝ × ℝ) : ℝ := 0.299 * c.1 + 0.587 * c.2.1 + 0.114 * c.2.2

/-- Model of `calculate_intensity` (`scanner_core.py:119-148`).  The hit normal the
scene service returns is a 3-component vector, which is always truthy in
Python, so the `if normal:` branch is always taken. -/
def calculateIntensity (s : Settings) (distance : ℝ) (hit : HitInfo)
    (rayDir : Vec3) : ℝ :=
  if s.enable_intensity = false then 1
  else
    let base : ℝ := if hit.hasMaterial then luminance hit.baseColor else 1
    let angleFactor : ℝ := max 0.1 |dot3 hit.normal (neg3 rayDir)|
    let distFactor : ℝ :=
      match s.intensity_falloff with
      | .quadratic => 1 / max 1 (distance ^ 2) * 100
      | .linear => 1 / max 1 distance * 10
      | .none => 1
    min 1 (max 0 (base * angleFactor * distFactor))

/-- Model of `apply_weather_effects` (`scanner_core.py:150-169`): returns the
possibly updated `(distance, intensity)` and a validity flag.  The rain
attenuation uses the incoming distance; the rain pull (when the draw is
below `rain_rate/1000*distance/10`) rescales the distance; the fog
attenuation then uses the possibly pulled distance and invalidates the
point once intensity drops below `0.05`. -/
def applyWeather (s : Settings) (dw : Draws) (d i : ℝ) : ℝ × ℝ × Bool :=
  if s.enable_weather = false then (d, i, true)
  else
    let di :=
      if (s.rain_rate : ℝ) > 0 then
        let i1 := i * Real.exp (-0.01 * (s.rain_rate : ℝ) * d)
        let d1 := if dw.rainHitDraw < (s.rain_rate : ℝ) / 1000 * d / 10
          then d * dw.rainFactor else d
        (d1, i1)
      else (d, i)
    if (s.fog_density : ℝ) > 0 then
      let i2 := di.2 * Real.exp (-(s.fog_density : ℝ) * di.1 / 50)
      if i2 < 0.05 then (di.1, i2, false) else (di.1, i2, true)
    else (di.1, di.2, true)

/-- Model of `get_category_id` (`scanner_core.py:171-181`): the custom property
value when one is present, else the object name. -/
def categoryOf (hit : HitInfo) : String := hit.categoryProp.getD hit.objName

/-- Model of `cast_ray` (`scanner_core.py:183-225`).  `world` is the external
scene ray-cast service: it maps an origin and a (possibly jittered)
direction to the hit data, or `none` on a miss. -/
def castRay (s : Settings) (world : Vec3 → Vec3 → Option HitInfo) (dw : Draws)
    (origin dir : Vec3) (ah av : ℚ) : Option ScanPoint :=
  let noisyDir :=
    if s.enable_noise = true ∧ (s.angular_noise_deg : ℝ) > 0
    then dw.jitter dir else dir
  match world origin noisyDir with
  | none => none
  | some hit =>
    let distance := norm3 (sub3 hit.location origin)
    if distance < (s.range_min : ℝ) ∨ distance > (s.range_max : ℝ) then none
    else if shouldDropout s dw then none
    else
      let noisyDistance := applyNoiseToDistance s dw distance
      let noisyPosition := add3 origin (smul3 noisyDistance noisyDir)
      let intensity := calculateIntensity s distance hit noisyDir
      let w := applyWeather s dw noisyDistance intensity
      if w.2.2 = false then none
      else
        some { position := noisyPosition, distance := w.1, intensity := w.2.1,
               normal := hit.normal, object_name := hit.objName,
               category_id := categoryOf hit, return_number := 1,
               angle_h := ah, angle_v := av }

/-- The scanner pose (`get_scanner_matrix`, `scanner_core.py:37-44`):
an origin and the rotation part of the matrix, abstracted as a linear
action on local directions. -/
structure Pose where
  origin : Vec3
  rotate : Vec3 → Vec3

/-- Model of `scan` (`scanner_core.py:227-257`): iterate the generated directions,
transform each to world space (`(matrix.to_3x3() @ dir).normalized()`),
cast, and keep the accepted points in ray order.  `draws i` supplies the
random draws consumed while processing ray number `i`. -/
def scanPoints (s : Settings) (pose : Pose)
    (world : Vec3 → Vec3 → Option HitInfo) (draws : ℕ → Draws) :
    List ScanPoint :=
  (rayDirections s).enum.filterMap (fun x =>
    castRay s world (draws x.1) pose.origin (normalize3 (pose.rotate x.2.2.2))
      x.2.1 x.2.2.1)

/-- Python `int()` applied to a real: truncation toward zero (used by the
grayscale conversion `int(point.intensity * 255)`, `export_utils.py:74`). -/
def truncR (r : ℝ) : ℤ := if 0 ≤ r then ⌊r⌋ else ⌈r⌉

/-- The grayscale color byte written by the ASCII PLY exporter
(`export_utils.py:74`). -/
def grayStr (p : ScanPoint) : String := toString (truncR (p.intensity * 255))

/-- The vertex line of the ASCII PLY exporter (`export_utils.py:63-77`).
`fmt6` is the host float formatter (Python `%.6f` formatting). -/
def plyAsciiLine (fmt6 : ℝ → String) (p : ScanPoint)
    (normals intensity labels : Bool) : String :=
  fmt6 p.position.x ++ " " ++ fmt6 p.position.y ++ " " ++ fmt6 p.position.z
    ++ (if normals then
          " " ++ fmt6 p.normal.x ++ " " ++ fmt6 p.normal.y ++ " "
            ++ fmt6 p.normal.z
        else "")
    ++ (if intensity then " " ++ fmt6 p.intensity ++ " " ++ fmt6 p.distance
        else "")
    ++ (if labels then
          " " ++ grayStr p ++ " " ++ grayStr p ++ " " ++ grayStr p
        else "")
    ++ "\n"

/-- The sequence of `f.write` calls `export_ply` performs, in order
(`export_utils.py:37-77`).  The file is opened at the destination path
with mode `w` (truncating) and the chunks are written one by one, so the
file content after `k` successful writes is the concatenation of the
first `k` chunks. -/
def plyAsciiChunks (fmt6 : ℝ → String) (pts : List ScanPoint)
    (normals intensity labels : Bool) : List String :=
  ["ply\n", "format ascii 1.0\n",
   "element vertex " ++ toString pts.length ++ "\n",
   "property float x\n", "property float y\n", "property float z\n"]
    ++ (if normals then
          ["property float nx\n", "property float ny\n", "property float nz\n"]
        else [])
    ++ (if intensity then
          ["property float intensity\n", "property float distance\n"]
        else [])
    ++ (if labels then
          ["property uchar red\n", "property uchar green\n",
           "property uchar blue\n"]
        else [])
    ++ ["end_header\n"]
    ++ pts.map (fun p => plyAsciiLine fmt6 p normals intensity labels)

/-- The field values of one binary PLY vertex record, in the order they
are packed (`export_utils.py:111-118`): position, then normals when
included, then intensity when included. -/
def plyBinaryRecord (p : ScanPoint) (normals intensity : Bool) : List ℝ :=
  [p.position.x, p.position.y, p.position.z]
    ++ (if normals then [p.normal.x, p.normal.y, p.normal.z] else [])
    ++ (if intensity then [p.intensity] else [])

/-- The field value a PLY property name denotes for a given point. -/
def propValue (p : ScanPoint) : String → ℝ
  | "x" => p.position.x
  | "y" => p.position.y
  | "z" => p.position.z
  | "nx" => p.normal.x
  | "ny" => p.normal.y
  | "nz" => p.normal.z
  | "intensity" => p.intensity
  | "distance" => p.distance
  | _ => 0

/-- One packed binary vertex record: each field is encoded by `enc` (the
host's little-endian IEEE-754 32-bit float encoding, `struct.pack '<f'`)
and the encodings are concatenated with nothing in between
(`export_utils.py:111-120`). -/
def packVertex (enc : ℝ → List UInt8) (p : ScanPoint)
    (normals intensity : Bool) : List UInt8 :=
  (plyBinaryRecord p normals intensity).flatMap enc

/-! ### Concrete scenario data used by the theorems below -/

/-- A ray is accepted when the scene reports a hit whose distance lies
inside the range gate `[range_min, range_max]` (`scanner_core.py:193-199`). -/
def accepted (s : Settings) (world : Vec3 → Vec3 → Option HitInfo)
    (o d : Vec3) : Prop :=
  ∃ hit, world o d = some hit ∧
    (s.range_min : ℝ) ≤ norm3 (sub3 hit.location o) ∧
    norm3 (sub3 hit.location o) ≤ (s.range_max : ℝ)

/-- The settings of the C5 scenario. -/
def animSettings : Settings :=
  { defaultSettings with
      enable_animation := true, frame_start := 1, frame_end := 5,
      frame_step := 2 }

/-- The settings of the C4 counterexample: `fov_h = 1`, `resolution_h = 0.3`,
both within the clamp bounds, with `0.3` not dividing `1`. -/
def ragGridSettings : Settings :=
  { defaultSettings with fov_h := 1, resolution_h := 0.3 }

/-- A concrete scan point used by encoder witnesses. -/
def witnessPoint : ScanPoint :=
  ⟨⟨0, 3, 4⟩, 5, 1, ⟨0, 0, 1⟩, "Cube", "cube", 1, 0, 0⟩

/-- A concrete configuration with noise, weather and intensity computation
disabled and range `[0, 100]`. -/
def simpleSettings : Settings :=
  { defaultSettings with
      enable_noise := false, enable_weather := false,
      enable_intensity := false, range_min := 0 }

/-- A concrete hit 5 m from the origin. -/
def simpleHit : HitInfo := ⟨⟨0, 3, 4⟩, ⟨0, 0, 1⟩, false, (1, 1, 1), "Cube", none⟩

/-- A scene in which every ray hits `simpleHit`. -/
def constWorld : Vec3 → Vec3 → Option HitInfo := fun _ _ => some simpleHit

/-- A concrete draw bundle (identity jitter, all draws zero, rain factor
`0.5` inside `[0.3, 0.9]`). -/
def zeroDraws : Draws := ⟨id, 0, 0, 0, 0, 0, 0, 0, 0.5⟩

/-- The scan point produced for `simpleHit` at distance 5 under
`simpleSettings`. -/
def simplePoint : ScanPoint :=
  { position := add3 ⟨0, 0, 0⟩
      (smul3 (norm3 (sub3 simpleHit.location ⟨0, 0, 0⟩)) ⟨0, 1, 0⟩)
    distance := norm3 (sub3 simpleHit.location ⟨0, 0, 0⟩)
    intensity := calculateIntensity simpleSettings
      (norm3 (sub3 simpleHit.location ⟨0, 0, 0⟩)) simpleHit ⟨0, 1, 0⟩
    normal := simpleHit.normal
    object_name := simpleHit.objName
    category_id := categoryOf simpleHit
    return_number := 1
    angle_h := 0
    angle_v := 0 }

/-- The settings of the C2 counterexample: noise disabled, weather
enabled with maximal fog and no rain, intensity computation off, range
gate `[0, 500]`.  All values lie inside the property clamp bounds. -/
def fogSettings : Settings :=
  { defaultSettings with
      enable_noise := false, enable_weather := true, fog_density := 1,
      rain_rate := 0, enable_intensity := false, range_min := 0,
      range_max := 500 }

/-- A concrete hit 500 m from the origin. -/
def fogHit : HitInfo := ⟨⟨0, 300, 400⟩, ⟨0, 0, 1⟩, false, (1, 1, 1), "Wall", none⟩

/-- A scene in which every ray hits `fogHit`. -/
def fogWorld : Vec3 → Vec3 → Option HitInfo := fun _ _ => some fogHit

/-- The settings of the C8 counterexample: dropout probability 1 with the
noise master toggle off (weather and intensity also off, range `[0,100]`). -/
def dropSettings : Settings :=
  { defaultSettings with
      enable_noise := false, enable_weather := false,
      enable_intensity := false, dropout_prob := 1, range_min := 0 }

/-- The identity scanner pose at the origin. -/
def idPose : Pose := ⟨⟨0, 0, 0⟩, fun v => v⟩

end

/-! ### Shared helper lemmas -/

theorem flatMap_length_const {α β : Type _} (f : α → List β) (c : ℕ)
    (h : ∀ a, (f a).length = c) :
    ∀ l : List α, (l.flatMap f).length = c * l.length := by
  intro l
  induction l with
  | nil => simp
  | cons a t ih => simp [List.flatMap_cons, h a, ih, Nat.mul_succ, Nat.add_comm]

theorem join_length_eq (l : List String) :
    (String.join l).length = (l.map String.length).sum := by
  suffices h : ∀ (l : List String) (acc : String),
      (l.foldl (· ++ ·) acc).length = acc.length + (l.map String.length).sum by
    simpa [String.join] using h l ""
  intro l
  induction l with
  | nil => intro acc; simp
  | cons a t ih =>
      intro acc
      simp [List.foldl_cons, ih, String.length_append]
      omega

/-! ### C3: applying the VELODYNE_VLP16 preset -/

/-- C3: applying the sensor preset "VELODYNE_VLP16" (the `sensor_preset`
enum update callback `apply_preset`, `properties.py:379-444`) and
re-reading the configuration yields `fov_h = 360`, `fov_v = 30`,
`resolution_h = 0.2`, `resolution_v = 2`, `range_max = 100`, for every
starting configuration. -/
theorem preset_vlp16_roundtrip (s : Settings) :
    (applyPreset s "VELODYNE_VLP16").fov_h = 360 ∧
    (applyPreset s "VELODYNE_VLP16").fov_v = 30 ∧
    (applyPreset s "VELODYNE_VLP16").resolution_h = 0.2 ∧
    (applyPreset s "VELODYNE_VLP16").resolution_v = 2 ∧
    (applyPreset s "VELODYNE_VLP16").range_max = 100 := by
  refine ⟨?_, ?_, ?_, ?_, ?_⟩ <;>
    simp [applyPreset, setFovH, setFovV, setResH, setResV, setRangeMax,
      clampQ] <;> norm_num

/-! ### C5: animation sweep frames and frame restoration -/


/-- C5 counterexample: with `frame_start = 1`, `frame_end = 5`,
`frame_step = 2` and the processing of frame 3 failing, the sweep leaves
the scene on frame 3, not on the pre-sweep frame 100: the loop body of
`LIDAR_OT_scan_animation.execute` has no `try`/`finally`, so an exception
raised while processing a frame skips the trailing
`frame_set(original_frame)` (`operators.py:214-222`). -/
theorem animation_restore_counterexample :
    (runAnimation (animFrames animSettings) 100 (fun f => f == 3)).finalFrame
      = 3 ∧
    (runAnimation (animFrames animSettings) 100 (fun f => f == 3)).finalFrame
      ≠ 100 := by
  decide

/-- C5 (amended): the sweep with `frame_start = 1`, `frame_end = 5`,
`frame_step = 2` sets the scene frame to exactly 1, 3, 5 in that order,
and restores the original frame afterward provided every frame's
processing succeeds; if the processing of a frame raises, the run stops
on the failing frame without restoring the original frame. -/
theorem animation_frames_and_restore :
    animFrames animSettings = [1, 3, 5] ∧
    (∀ (orig : ℤ) (fails : ℤ → Bool),
      (∀ f ∈ animFrames animSettings, fails f = false) →
      runAnimation (animFrames animSettings) orig fails = ⟨[1, 3, 5], orig, true⟩) ∧
    (∀ orig : ℤ,
      runAnimation (animFrames animSettings) orig (fun f => f == 3)
        = ⟨[1, 3], 3, false⟩) := by
  have hframes : animFrames animSettings = [1, 3, 5] := by decide
  refine ⟨hframes, ?_, ?_⟩
  · intro orig fails hok
    rw [hframes] at hok ⊢
    have h1 := hok 1 (by decide)
    have h3 := hok 3 (by decide)
    have h5 := hok 5 (by decide)
    simp [runAnimation, h1, h3, h5]
  · intro orig
    rw [hframes]
    simp [runAnimation]

/-- C5 witness: on the failure-free run the frames 1, 3, 5 are visited in
order and the scene is restored to the original frame 100. -/
theorem animation_frames_and_restore_witness :
    runAnimation (animFrames animSettings) 100 (fun _ => false)
      = ⟨[1, 3, 5], 100, true⟩ :=
  animation_frames_and_restore.2.1 100 (fun _ => false) (by intro f _; rfl)

/-! ### C6: binary PLY property set versus ASCII PLY -/

/-- C6 counterexample: with normals and the intensity group enabled, the
binary PLY property set is not the ASCII property set minus the label
group — the binary encoder declares no `distance` property
(`export_utils.py:104-105` versus `export_utils.py:51-53`). -/
theorem ply_binary_props_counterexample :
    ¬ (plyBinaryProps true true = plyAsciiProps true true false) := by
  decide

/-- C6 (amended): the binary little-endian PLY encoder emits the ASCII
property set minus the label group and minus the `distance` field (the
intensity group contributes only `intensity`); each vertex record holds
exactly the header-declared fields in header order, and with a 4-byte
float encoding the packed record is the plain concatenation of the field
encodings, `4 * (number of declared properties)` bytes with no padding. -/
theorem ply_binary_layout :
    (∀ n i : Bool,
      plyBinaryProps n i
        = (plyAsciiProps n i false).filter (fun nm => nm ≠ "distance")) ∧
    (∀ (p : ScanPoint) (n i : Bool),
      plyBinaryRecord p n i = (plyBinaryProps n i).map (propValue p)) ∧
    (∀ enc : ℝ → List UInt8, (∀ r, (enc r).length = 4) →
      ∀ (p : ScanPoint) (n i : Bool),
        (packVertex enc p n i).length = 4 * (plyBinaryProps n i).length) := by
  refine ⟨by decide, ?_, ?_⟩
  · intro p n i
    cases n <;> cases i <;> rfl
  · intro enc henc p n i
    have hlen : (packVertex enc p n i).length
        = 4 * (plyBinaryRecord p n i).length :=
      flatMap_length_const enc 4 henc (plyBinaryRecord p n i)
    have hrec : (plyBinaryRecord p n i).length = (plyBinaryProps n i).length := by
      cases n <;> cases i <;> rfl
    rw [hlen, hrec]


/-- C6 witness: with a concrete 4-byte-per-float encoder and a concrete
point, the packed full record is 28 bytes = 4 × 7 declared properties. -/
theorem ply_binary_layout_witness :
    (packVertex (fun _ => [0, 0, 0, 0]) witnessPoint true true).length
      = 4 * (plyBinaryProps true true).length :=
  ply_binary_layout.2.2 (fun _ => [0, 0, 0, 0]) (fun _ => rfl)
    witnessPoint true true

/-! ### C4: boundary angles of the sample grid -/

theorem range_map_head (n : ℕ) (hn : 0 < n) (f : ℕ → ℚ) :
    ((List.range n).map f).head? = some (f 0) := by
  cases n with
  | zero => omega
  | succ m => rw [List.range_succ_eq_map]; rfl

theorem range_map_getLast (n : ℕ) (f : ℕ → ℚ) :
    ((List.range (n + 1)).map f).getLast? = some (f n) := by
  rw [List.range_succ, List.map_append]
  exact List.getLast?_concat _

theorem floor_mul_le (f r : ℚ) (hr : 0 < r) : (⌊f / r⌋ : ℚ) * r ≤ f := by
  have h := Int.floor_le (f / r)
  calc (⌊f / r⌋ : ℚ) * r ≤ f / r * r := mul_le_mul_of_nonneg_right h hr.le
    _ = f := div_mul_cancel₀ f hr.ne'

theorem sub_lt_floor_mul (f r : ℚ) (hr : 0 < r) : f - r < (⌊f / r⌋ : ℚ) * r := by
  have h := Int.sub_one_lt_floor (f / r)
  calc f - r = (f / r - 1) * r := by field_simp
    _ < (⌊f / r⌋ : ℚ) * r := mul_lt_mul_of_pos_right h hr

/-- The first and last horizontal sample angles, for a positive FOV and a
resolution at or above the `0.01` guard. -/
theorem hAngles_spec (s : Settings) (hfh : 0 < s.fov_h)
    (hrh : 0.01 ≤ s.resolution_h) :
    (hAngles s).head? = some (-s.fov_h / 2) ∧
    (hAngles s).getLast?
      = some (-s.fov_h / 2 + ⌊s.fov_h / s.resolution_h⌋ * s.resolution_h) := by
  have hrh0 : (0 : ℚ) < s.resolution_h := lt_of_lt_of_le (by norm_num) hrh
  have hgh : guardResH s = s.resolution_h := max_eq_right hrh
  have hqh : (0 : ℚ) ≤ s.fov_h / s.resolution_h := div_nonneg hfh.le hrh0.le
  have hsh : hSteps s = ⌊s.fov_h / s.resolution_h⌋ := by
    rw [hSteps, truncQ, hgh, if_pos hqh]
  have hshnn : 0 ≤ hSteps s := hsh ▸ Int.floor_nonneg.mpr hqh
  have hnh : (hSteps s + 1).toNat = (hSteps s).toNat + 1 := by omega
  have hc : ((hSteps s).toNat : ℚ) = (⌊s.fov_h / s.resolution_h⌋ : ℚ) := by
    exact_mod_cast
      congrArg (fun z : ℤ => (z : ℚ)) ((Int.toNat_of_nonneg hshnn).trans hsh)
  constructor
  · rw [hAngles, range_map_head _ (by omega)]
    simp
  · rw [hAngles, hnh, range_map_getLast, hgh, hc]

/-- The first and last vertical sample angles, for a positive FOV and a
resolution at or above the `0.01` guard. -/
theorem vAngles_spec (s : Settings) (hfv : 0 < s.fov_v)
    (hrv : 0.01 ≤ s.resolution_v) :
    (vAngles s).head? = some (-s.fov_v / 2) ∧
    (vAngles s).getLast?
      = some (-s.fov_v / 2 + ⌊s.fov_v / s.resolution_v⌋ * s.resolution_v) := by
  have hrv0 : (0 : ℚ) < s.resolution_v := lt_of_lt_of_le (by norm_num) hrv
  have hgv : guardResV s = s.resolution_v := max_eq_right hrv
  have hqv : (0 : ℚ) ≤ s.fov_v / s.resolution_v := div_nonneg hfv.le hrv0.le
  have hsv : vSteps s = ⌊s.fov_v / s.resolution_v⌋ := by
    rw [vSteps, truncQ, hgv, if_pos hqv]
  have hsvnn : 0 ≤ vSteps s := hsv ▸ Int.floor_nonneg.mpr hqv
  have hnv : (vSteps s + 1).toNat = (vSteps s).toNat + 1 := by omega
  have hc : ((vSteps s).toNat : ℚ) = (⌊s.fov_v / s.resolution_v⌋ : ℚ) := by
    exact_mod_cast
      congrArg (fun z : ℤ => (z : ℚ)) ((Int.toNat_of_nonneg hsvnn).trans hsv)
  constructor
  · rw [vAngles, range_map_head _ (by omega)]
    simp
  · rw [vAngles, hnv, range_map_getLast, hgv, hc]


/-- C4 counterexample: with `FOV_h = 1` and `res_h = 0.3` (both within the
clamp bounds) the last horizontal sample angle is `0.4`, not
`+FOV_h/2 = 0.5`: the grid stops at `-FOV/2 + floor(FOV/res)·res`
(`scanner_core.py:55,63`), which reaches `+FOV/2` only when the
resolution divides the FOV evenly. -/
theorem grid_upper_boundary_counterexample :
    (hAngles ragGridSettings).getLast? = some (2 / 5) ∧
    ¬ (hAngles ragGridSettings).getLast? = some (ragGridSettings.fov_h / 2) := by
  have hf : ragGridSettings.fov_h = 1 := rfl
  have hr : ragGridSettings.resolution_h = 0.3 := rfl
  obtain ⟨-, h2⟩ := hAngles_spec ragGridSettings (by rw [hf]; norm_num)
    (by rw [hr]; norm_num)
  rw [hf, hr] at h2
  have hval : (-(1 : ℚ) / 2 + ⌊(1 : ℚ) / 0.3⌋ * 0.3) = 2 / 5 := by norm_num
  refine ⟨by rw [h2, hval], ?_⟩
  rw [h2, hval, hf]
  intro h
  rw [Option.some_inj] at h
  norm_num at h

/-- C4 (amended): for settings within the clamp bounds, the first sample
angle on each axis is exactly `-FOV/2`; the last sample angle is exactly
`-FOV/2 + floor(FOV/res)·res`, which is at most `+FOV/2` and falls short
of it by strictly less than one resolution step (so it equals `+FOV/2`
exactly when the resolution divides the FOV, and there is no truncation
past one grid step otherwise). -/
theorem grid_boundary_angles (s : Settings)
    (hfh : 1 ≤ s.fov_h) (hrh : 0.01 ≤ s.resolution_h)
    (hfv : 1 ≤ s.fov_v) (hrv : 0.01 ≤ s.resolution_v) :
    (hAngles s).head? = some (-s.fov_h / 2) ∧
    (vAngles s).head? = some (-s.fov_v / 2) ∧
    (hAngles s).getLast?
      = some (-s.fov_h / 2 + ⌊s.fov_h / s.resolution_h⌋ * s.resolution_h) ∧
    (vAngles s).getLast?
      = some (-s.fov_v / 2 + ⌊s.fov_v / s.resolution_v⌋ * s.resolution_v) ∧
    -s.fov_h / 2 + ⌊s.fov_h / s.resolution_h⌋ * s.resolution_h ≤ s.fov_h / 2 ∧
    s.fov_h / 2 - (-s.fov_h / 2 + ⌊s.fov_h / s.resolution_h⌋ * s.resolution_h)
      < s.resolution_h ∧
    -s.fov_v / 2 + ⌊s.fov_v / s.resolution_v⌋ * s.resolution_v ≤ s.fov_v / 2 ∧
    s.fov_v / 2 - (-s.fov_v / 2 + ⌊s.fov_v / s.resolution_v⌋ * s.resolution_v)
      < s.resolution_v := by
  have hrh0 : (0 : ℚ) < s.resolution_h := lt_of_lt_of_le (by norm_num) hrh
  have hrv0 : (0 : ℚ) < s.resolution_v := lt_of_lt_of_le (by norm_num) hrv
  obtain ⟨hh1, hh2⟩ := hAngles_spec s (by linarith) hrh
  obtain ⟨hv1, hv2⟩ := vAngles_spec s (by linarith) hrv
  refine ⟨hh1, hv1, hh2, hv2, ?_, ?_, ?_, ?_⟩
  · have := floor_mul_le s.fov_h s.resolution_h hrh0
    linarith
  · have := sub_lt_floor_mul s.fov_h s.resolution_h hrh0
    linarith
  · have := floor_mul_le s.fov_v s.resolution_v hrv0
    linarith
  · have := sub_lt_floor_mul s.fov_v s.resolution_v hrv0
    linarith

/-- C4 witness: for the default settings (`FOV_h = 360`, `res_h = 0.2`,
where the resolution divides the FOV) the horizontal angles run from
`-180` to exactly `+180`. -/
theorem grid_boundary_angles_witness :
    (hAngles defaultSettings).head? = some (-180 : ℚ) ∧
    (hAngles defaultSettings).getLast? = some (180 : ℚ) := by
  have hf : defaultSettings.fov_h = 360 := rfl
  have hr : defaultSettings.resolution_h = 0.2 := rfl
  obtain ⟨h1, _, h3, _, _, _, _, _⟩ :=
    grid_boundary_angles defaultSettings (by rw [hf]; norm_num)
      (by rw [hr]; norm_num) (by norm_num [defaultSettings])
      (by norm_num [defaultSettings])
  rw [hf] at h1
  rw [hf, hr] at h3
  refine ⟨?_, ?_⟩
  · rw [h1]
    norm_num
  · rw [h3]
    norm_num

/-! ### C7: encoder write sequence and (non-)atomicity -/

theorem mem_append_pos {A B : List String}
    (hA : ∀ c ∈ A, 0 < c.length) (hB : ∀ c ∈ B, 0 < c.length) :
    ∀ c ∈ A ++ B, 0 < c.length := by
  intro c hc
  rcases List.mem_append.mp hc with h | h
  · exact hA c h
  · exact hB c h

/-- Every single `f.write` argument of `export_ply` is a nonempty string
(each header line and each vertex line ends in a newline). -/
theorem plyAsciiChunks_pos (fmt6 : ℝ → String) (pts : List ScanPoint)
    (n i l : Bool) : ∀ c ∈ plyAsciiChunks fmt6 pts n i l, 0 < c.length := by
  have hline : ∀ p : ScanPoint, 0 < (plyAsciiLine fmt6 p n i l).length := by
    intro p
    rw [plyAsciiLine, String.length_append]
    have h1 : ("\n" : String).length = 1 := rfl
    omega
  rw [plyAsciiChunks]
  refine mem_append_pos (mem_append_pos (mem_append_pos (mem_append_pos
    (mem_append_pos ?_ ?_) ?_) ?_) ?_) ?_
  · intro c hc
    simp only [List.mem_cons, List.not_mem_nil, or_false] at hc
    rcases hc with rfl | rfl | rfl | rfl | rfl | rfl
    · decide
    · decide
    · rw [String.length_append, String.length_append]
      have h15 : ("element vertex " : String).length = 15 := rfl
      have h1 : ("\n" : String).length = 1 := rfl
      omega
    · decide
    · decide
    · decide
  · cases n with
    | false => intro c hc; simp at hc
    | true => intro c hc; fin_cases hc <;> decide
  · cases i with
    | false => intro c hc; simp at hc
    | true => intro c hc; fin_cases hc <;> decide
  · cases l with
    | false => intro c hc; simp at hc
    | true => intro c hc; fin_cases hc <;> decide
  · intro c hc
    fin_cases hc
    decide
  · intro c hc
    obtain ⟨p, _, rfl⟩ := List.mem_map.mp hc
    exact hline p

/-- C7 counterexample: `export_ply` opens the destination path directly
with mode `w` and writes incrementally (`export_utils.py:37`); if writing
stops after the first of its write calls (for instance on a filesystem
error), the destination file holds exactly `"ply\n"` — a nonempty partial
file that is not the complete output — so the encoder does not fail
atomically.  Shown here for the empty point list. -/
theorem ply_atomicity_counterexample :
    String.join ((plyAsciiChunks (fun _ => "") [] true true true).take 1)
      = "ply\n" ∧
    ("ply\n" : String) ≠ "" ∧
    String.join ((plyAsciiChunks (fun _ => "") [] true true true).take 1)
      ≠ String.join (plyAsciiChunks (fun _ => "") [] true true true) := by
  refine ⟨rfl, by decide, by decide⟩

/-- C7 (amended): the encoders write their header and per-point records
incrementally, directly to the destination path; only when every write
succeeds is the complete encoding on disk, and an error after `k ≥ 1`
writes (with at least one write remaining) leaves a nonempty strictly
partial file — the concatenation of the first `k` write chunks — at the
output path. -/
theorem ply_write_not_atomic (fmt6 : ℝ → String) (pts : List ScanPoint)
    (n i l : Bool) (k : ℕ) (hk1 : 1 ≤ k)
    (hk2 : k < (plyAsciiChunks fmt6 pts n i l).length) :
    String.join ((plyAsciiChunks fmt6 pts n i l).take k) ≠ "" ∧
    (String.join ((plyAsciiChunks fmt6 pts n i l).take k)).length
      < (String.join (plyAsciiChunks fmt6 pts n i l)).length := by
  have hpos := plyAsciiChunks_pos fmt6 pts n i l
  set cs := plyAsciiChunks fmt6 pts n i l with hcs
  have htake : 0 < ((cs.take k).map String.length).sum := by
    apply List.sum_pos
    · intro x hx
      obtain ⟨c, hc, rfl⟩ := List.mem_map.mp hx
      exact hpos c (List.mem_of_mem_take hc)
    · have hl : 0 < ((cs.take k).map String.length).length := by
        simp [List.length_take]
        omega
      exact List.length_pos.mp hl
  have hdrop : 0 < ((cs.drop k).map String.length).sum := by
    apply List.sum_pos
    · intro x hx
      obtain ⟨c, hc, rfl⟩ := List.mem_map.mp hx
      exact hpos c (List.mem_of_mem_drop hc)
    · have hl : 0 < ((cs.drop k).map String.length).length := by
        simp [List.length_drop]
        omega
      exact List.length_pos.mp hl
  constructor
  · intro hjoin
    have hlen := join_length_eq (cs.take k)
    rw [hjoin] at hlen
    have h0 : ("" : String).length = 0 := rfl
    omega
  · rw [join_length_eq, join_length_eq]
    conv_rhs => rw [← List.take_append_drop k cs]
    rw [List.map_append, List.sum_append]
    omega

/-- C7 witness: a fault after the first write of an empty-point-list PLY
export leaves a nonempty file strictly shorter than the full output. -/
theorem ply_write_not_atomic_witness :
    String.join ((plyAsciiChunks (fun _ => "") [] false false false).take 1)
      ≠ "" ∧
    (String.join ((plyAsciiChunks (fun _ => "") [] false false false).take 1)).length
      < (String.join (plyAsciiChunks (fun _ => "") [] false false false)).length :=
  ply_write_not_atomic (fun _ => "") [] false false false 1 (by decide)
    (by decide)

/-! ### C1: ray count and unit length of directions -/

theorem hSteps_floor (s : Settings) (hfh : 0 < s.fov_h)
    (hrh : 0.01 ≤ s.resolution_h) :
    hSteps s = ⌊s.fov_h / s.resolution_h⌋ ∧ 0 ≤ hSteps s := by
  have hrh0 : (0 : ℚ) < s.resolution_h := lt_of_lt_of_le (by norm_num) hrh
  have hq : (0 : ℚ) ≤ s.fov_h / s.resolution_h := div_nonneg hfh.le hrh0.le
  have hg : guardResH s = s.resolution_h := max_eq_right hrh
  have h : hSteps s = ⌊s.fov_h / s.resolution_h⌋ := by
    rw [hSteps, truncQ, hg, if_pos hq]
  exact ⟨h, h ▸ Int.floor_nonneg.mpr hq⟩

theorem vSteps_floor (s : Settings) (hfv : 0 < s.fov_v)
    (hrv : 0.01 ≤ s.resolution_v) :
    vSteps s = ⌊s.fov_v / s.resolution_v⌋ ∧ 0 ≤ vSteps s := by
  have hrv0 : (0 : ℚ) < s.resolution_v := lt_of_lt_of_le (by norm_num) hrv
  have hq : (0 : ℚ) ≤ s.fov_v / s.resolution_v := div_nonneg hfv.le hrv0.le
  have hg : guardResV s = s.resolution_v := max_eq_right hrv
  have h : vSteps s = ⌊s.fov_v / s.resolution_v⌋ := by
    rw [vSteps, truncQ, hg, if_pos hq]
  exact ⟨h, h ▸ Int.floor_nonneg.mpr hq⟩

theorem angleGrid_length (s : Settings) :
    (angleGrid s).length = (hAngles s).length * (vAngles s).length := by
  rw [angleGrid]
  exact flatMap_length_const _ (hAngles s).length (fun av => by simp) (vAngles s)

theorem normalize3_of_norm_one {v : Vec3} (h : norm3 v = 1) :
    normalize3 v = v := by
  obtain ⟨x, y, z⟩ := v
  rw [normalize3, if_neg (by rw [h]; norm_num), h]
  simp

/-- The direction of every grid sample has exact unit Euclidean length:
the spherical-to-Cartesian conversion already produces a unit vector, and
`.normalized()` preserves it. -/
theorem norm3_dirVec (ah av : ℚ) : norm3 (dirVec ah av) = 1 := by
  have hraw : norm3
      ⟨Real.cos (deg2rad av) * Real.sin (deg2rad ah),
       Real.cos (deg2rad av) * Real.cos (deg2rad ah),
       Real.sin (deg2rad av)⟩ = 1 := by
    rw [norm3]
    have h1 : Real.sin (deg2rad ah) ^ 2 + Real.cos (deg2rad ah) ^ 2 = 1 :=
      Real.sin_sq_add_cos_sq _
    have h2 : Real.sin (deg2rad av) ^ 2 + Real.cos (deg2rad av) ^ 2 = 1 :=
      Real.sin_sq_add_cos_sq _
    have hsum : (Real.cos (deg2rad av) * Real.sin (deg2rad ah)) ^ 2
        + (Real.cos (deg2rad av) * Real.cos (deg2rad ah)) ^ 2
        + Real.sin (deg2rad av) ^ 2 = 1 := by nlinarith [h1, h2]
    rw [hsum, Real.sqrt_one]
  rw [dirVec, normalize3_of_norm_one hraw]
  exact hraw

/-- C1: for settings within the clamp bounds, `generate_ray_directions`
returns exactly `(floor(FOV_h/res_h)+1) * (floor(FOV_v/res_v)+1)` tuples
and every direction has unit length (hence within tolerance `1e-6` of
unit length). -/
theorem ray_count_and_unit_norm (s : Settings)
    (hfh : 1 ≤ s.fov_h) (hfh' : s.fov_h ≤ 360)
    (hfv : 1 ≤ s.fov_v) (hfv' : s.fov_v ≤ 90)
    (hrh : 0.01 ≤ s.resolution_h) (hrh' : s.resolution_h ≤ 5)
    (hrv : 0.01 ≤ s.resolution_v) (hrv' : s.resolution_v ≤ 5) :
    ((rayDirections s).length : ℤ)
      = (⌊s.fov_h / s.resolution_h⌋ + 1) * (⌊s.fov_v / s.resolution_v⌋ + 1) ∧
    ∀ t ∈ rayDirections s, norm3 t.2.2 = 1 := by
  constructor
  · obtain ⟨hsh, hshnn⟩ := hSteps_floor s (by linarith) hrh
    obtain ⟨hsv, hsvnn⟩ := vSteps_floor s (by linarith) hrv
    have hlen : (rayDirections s).length
        = (hAngles s).length * (vAngles s).length := by
      rw [rayDirections, List.length_map, angleGrid_length]
    have hh : (hAngles s).length = (hSteps s + 1).toNat := by simp [hAngles]
    have hv : (vAngles s).length = (vSteps s + 1).toNat := by simp [vAngles]
    have h1 : ((hSteps s + 1).toNat : ℤ) = hSteps s + 1 :=
      Int.toNat_of_nonneg (by omega)
    have h2 : ((vSteps s + 1).toNat : ℤ) = vSteps s + 1 :=
      Int.toNat_of_nonneg (by omega)
    rw [hlen, hh, hv, Nat.cast_mul, h1, h2, hsh, hsv]
  · intro t ht
    rw [rayDirections] at ht
    obtain ⟨p, _, rfl⟩ := List.mem_map.mp ht
    exact norm3_dirVec p.1 p.2

/-- C1 witness: for `FOV_h = 360`, `FOV_v = 30`, `res_h = 0.2`,
`res_v = 1.0` (the default settings) exactly `1801 * 31 = 55831` direction
tuples are generated, all of unit length. -/
theorem ray_count_and_unit_norm_witness :
    ((rayDirections defaultSettings).length : ℤ) = 55831 ∧
    ∀ t ∈ rayDirections defaultSettings, norm3 t.2.2 = 1 := by
  obtain ⟨h1, h2⟩ := ray_count_and_unit_norm defaultSettings
    (by norm_num [defaultSettings]) (by norm_num [defaultSettings])
    (by norm_num [defaultSettings]) (by norm_num [defaultSettings])
    (by norm_num [defaultSettings]) (by norm_num [defaultSettings])
    (by norm_num [defaultSettings]) (by norm_num [defaultSettings])
  refine ⟨?_, h2⟩
  rw [h1]
  norm_num [defaultSettings]

/-! ### Measurement-model helpers -/

theorem norm3_nonneg (v : Vec3) : 0 ≤ norm3 v := Real.sqrt_nonneg _

/-- With noise and weather disabled, `cast_ray` accepts every in-range hit
and reports the exact geometric distance: the jitter, dropout, range-noise
and weather stages are all pass-throughs. -/
theorem castRay_noiseless (s : Settings) (world : Vec3 → Vec3 → Option HitInfo)
    (dw : Draws) (o d : Vec3) (ah av : ℚ) (hit : HitInfo)
    (hn : s.enable_noise = false) (hw : s.enable_weather = false)
    (hworld : world o d = some hit)
    (h1 : ¬ norm3 (sub3 hit.location o) < (s.range_min : ℝ))
    (h2 : ¬ norm3 (sub3 hit.location o) > (s.range_max : ℝ)) :
    castRay s world dw o d ah av = some
      { position := add3 o (smul3 (norm3 (sub3 hit.location o)) d)
        distance := norm3 (sub3 hit.location o)
        intensity := calculateIntensity s (norm3 (sub3 hit.location o)) hit d
        normal := hit.normal
        object_name := hit.objName
        category_id := categoryOf hit
        return_number := 1
        angle_h := ah
        angle_v := av } := by
  have hnd : (if s.enable_noise = true ∧ (s.angular_noise_deg : ℝ) > 0
      then dw.jitter d else d) = d := by
    rw [hn]
    simp
  have hsd : ¬ shouldDropout s dw := by
    rw [shouldDropout, hn]
    simp
  have hnoise : applyNoiseToDistance s dw (norm3 (sub3 hit.location o))
      = norm3 (sub3 hit.location o) := by
    rw [applyNoiseToDistance, if_pos hn]
  have hweather : applyWeather s dw (norm3 (sub3 hit.location o))
      (calculateIntensity s (norm3 (sub3 hit.location o)) hit d)
      = (norm3 (sub3 hit.location o),
         calculateIntensity s (norm3 (sub3 hit.location o)) hit d, true) := by
    rw [applyWeather, if_pos hw]
  simp only [castRay, hnd, hworld]
  rw [if_neg (not_or.mpr ⟨h1, h2⟩), if_neg hsd, hnoise, hweather]
  simp



theorem simpleHit_dist : norm3 (sub3 simpleHit.location ⟨0, 0, 0⟩) = 5 := by
  have h : (0 : ℝ) ^ 2 + 3 ^ 2 + 4 ^ 2 = 5 ^ 2 := by norm_num
  simp only [simpleHit, sub3, norm3]
  norm_num
  rw [show (25 : ℝ) = 5 ^ 2 by norm_num, Real.sqrt_sq (by norm_num : (0:ℝ) ≤ 5)]


theorem simple_cast :
    castRay simpleSettings constWorld zeroDraws ⟨0, 0, 0⟩ ⟨0, 1, 0⟩ 0 0
      = some simplePoint := by
  apply castRay_noiseless
  · rfl
  · rfl
  · rfl
  · rw [simpleHit_dist]
    have : simpleSettings.range_min = 0 := rfl
    rw [this]
    norm_num
  · rw [simpleHit_dist]
    have : simpleSettings.range_max = 100 := rfl
    rw [this]
    norm_num

/-! ### C2: noiseless measurement exactness and discarding -/

theorem exp_neg_ten_lt : Real.exp (-10) < 0.05 := by
  have h2 : (2 : ℝ) ≤ Real.exp 1 := by
    have := Real.add_one_le_exp (1 : ℝ)
    linarith
  have hpow : (1024 : ℝ) ≤ Real.exp 10 := by
    have h := pow_le_pow_left (by norm_num : (0:ℝ) ≤ 2) h2 10
    have he : Real.exp (((10:ℕ) : ℝ) * (1:ℝ)) = Real.exp 1 ^ (10:ℕ) :=
      Real.exp_nat_mul 1 10
    rw [show (((10:ℕ):ℝ)) * (1:ℝ) = (10:ℝ) by norm_num] at he
    rw [he]
    calc (1024:ℝ) = 2 ^ 10 := by norm_num
      _ ≤ Real.exp 1 ^ 10 := h
  calc Real.exp (-10) = (Real.exp 10)⁻¹ := by rw [Real.exp_neg]
    _ ≤ (1024:ℝ)⁻¹ := inv_le_inv_of_le (by norm_num) hpow
    _ < 0.05 := by norm_num

/-- With weather on, no rain, positive fog and unit incoming intensity,
`apply_weather_effects` attenuates by the fog factor and invalidates the
measurement when the result drops below `0.05`
(`scanner_core.py:162-167`). -/
theorem applyWeather_fog_none (s : Settings) (dw : Draws) (dval : ℝ)
    (hw : s.enable_weather = true) (hrr : s.rain_rate = 0)
    (hfd : (0:ℚ) < s.fog_density)
    (hsmall : Real.exp (-((s.fog_density : ℝ) * dval) / 50) < 0.05) :
    applyWeather s dw dval 1
      = (dval, 1 * Real.exp (-(s.fog_density : ℝ) * dval / 50), false) := by
  have hfd' : (0:ℝ) < (s.fog_density : ℝ) := by exact_mod_cast hfd
  simp [applyWeather, hw, hrr, hfd', hsmall]

/-- With noise disabled but weather enabled (no rain, positive fog), a ray
whose hit lies inside the range gate is still discarded once the fog
attenuation drives intensity below `0.05`. -/
theorem castRay_fog_discard (s : Settings)
    (world : Vec3 → Vec3 → Option HitInfo) (dw : Draws) (o d : Vec3)
    (ah av : ℚ) (hit : HitInfo)
    (hn : s.enable_noise = false) (hw : s.enable_weather = true)
    (hrr : s.rain_rate = 0) (hin : s.enable_intensity = false)
    (hfd : (0:ℚ) < s.fog_density)
    (hworld : world o d = some hit)
    (h1 : ¬ norm3 (sub3 hit.location o) < (s.range_min : ℝ))
    (h2 : ¬ norm3 (sub3 hit.location o) > (s.range_max : ℝ))
    (hsmall : Real.exp (-(s.fog_density : ℝ) * norm3 (sub3 hit.location o) / 50)
      < 0.05) :
    castRay s world dw o d ah av = none := by
  have hnd : (if s.enable_noise = true ∧ (s.angular_noise_deg : ℝ) > 0
      then dw.jitter d else d) = d := by
    rw [hn]
    simp
  have hsd : ¬ shouldDropout s dw := by
    rw [shouldDropout, hn]
    simp
  have hnoise : applyNoiseToDistance s dw (norm3 (sub3 hit.location o))
      = norm3 (sub3 hit.location o) := by
    rw [applyNoiseToDistance, if_pos hn]
  have hint : calculateIntensity s (norm3 (sub3 hit.location o)) hit d = 1 := by
    rw [calculateIntensity, if_pos hin]
  have hweather := applyWeather_fog_none s dw (norm3 (sub3 hit.location o))
    hw hrr hfd (by rw [neg_mul] at hsmall; exact hsmall)
  simp only [castRay, hnd, hworld]
  rw [if_neg (not_or.mpr ⟨h1, h2⟩), if_neg hsd, hnoise, hint, hweather]
  simp



theorem fogHit_dist : norm3 (sub3 fogHit.location ⟨0, 0, 0⟩) = 500 := by
  simp only [fogHit, sub3, norm3]
  norm_num
  rw [show (250000 : ℝ) = 500 ^ 2 by norm_num,
    Real.sqrt_sq (by norm_num : (0:ℝ) ≤ 500)]

/-- C2 counterexample: with the noise toggle disabled but the (separately
toggled) weather simulation enabled, a hit 500 m away — inside the range
gate `[range_min, range_max] = [0, 500]` — produces no scan point at all:
`apply_weather_effects` is gated only on `enable_weather`
(`scanner_core.py:152`), and the fog attenuation `exp(-1·500/50)` pushes
intensity below the `0.05` cutoff, discarding the point
(`scanner_core.py:166-167`). -/
theorem noiseless_discard_counterexample :
    fogSettings.enable_noise = false ∧
    (fogSettings.range_min : ℝ) ≤ norm3 (sub3 fogHit.location ⟨0, 0, 0⟩) ∧
    norm3 (sub3 fogHit.location ⟨0, 0, 0⟩) ≤ (fogSettings.range_max : ℝ) ∧
    castRay fogSettings fogWorld zeroDraws ⟨0, 0, 0⟩ ⟨0, 1, 0⟩ 0 0 = none := by
  have hmin : fogSettings.range_min = 0 := rfl
  have hmax : fogSettings.range_max = 500 := rfl
  refine ⟨rfl, ?_, ?_, ?_⟩
  · rw [fogHit_dist, hmin]
    norm_num
  · rw [fogHit_dist, hmax]
    norm_num
  · apply castRay_fog_discard fogSettings fogWorld zeroDraws _ _ 0 0 fogHit
      rfl rfl rfl rfl (by norm_num [show fogSettings.fog_density = 1 from rfl]) rfl
    · rw [fogHit_dist, hmin]
      norm_num
    · rw [fogHit_dist, hmax]
      norm_num
    · rw [fogHit_dist]
      have hfd : fogSettings.fog_density = 1 := rfl
      rw [hfd]
      rw [show -(((1:ℚ):ℝ)) * 500 / 50 = -10 by norm_num]
      exact exp_neg_ten_lt

/-- C2 (amended): when the noise toggle is disabled the dropout stage
never discards a point; when the weather toggle is disabled as well,
every hit inside `[range_min, range_max]` yields a scan point whose
reported distance is exactly the true geometric hit distance.  (When
weather is enabled — a separate toggle — fog can still discard points and
rain can still alter distances, as the counterexample shows.) -/
theorem noiseless_measurement :
    (∀ (s : Settings) (dw : Draws), s.enable_noise = false →
      ¬ shouldDropout s dw) ∧
    (∀ (s : Settings) (world : Vec3 → Vec3 → Option HitInfo) (dw : Draws)
      (o d : Vec3) (ah av : ℚ) (hit : HitInfo),
      s.enable_noise = false → s.enable_weather = false →
      world o d = some hit →
      (s.range_min : ℝ) ≤ norm3 (sub3 hit.location o) →
      norm3 (sub3 hit.location o) ≤ (s.range_max : ℝ) →
      castRay s world dw o d ah av = some
        { position := add3 o (smul3 (norm3 (sub3 hit.location o)) d)
          distance := norm3 (sub3 hit.location o)
          intensity := calculateIntensity s (norm3 (sub3 hit.location o)) hit d
          normal := hit.normal
          object_name := hit.objName
          category_id := categoryOf hit
          return_number := 1
          angle_h := ah
          angle_v := av }) := by
  constructor
  · intro s dw hn
    rw [shouldDropout, hn]
    simp
  · intro s world dw o d ah av hit hn hw hworld hlo hhi
    exact castRay_noiseless s world dw o d ah av hit hn hw hworld
      (not_lt.mpr hlo) (not_lt.mpr hhi)

/-- C2 witness: for the concrete noiseless scene the cast produces the
point whose reported distance is exactly the true hit distance (5 m). -/
theorem noiseless_measurement_witness :
    castRay simpleSettings constWorld zeroDraws ⟨0, 0, 0⟩ ⟨0, 1, 0⟩ 0 0
      = some simplePoint ∧
    simplePoint.distance = norm3 (sub3 simpleHit.location ⟨0, 0, 0⟩) := by
  have hmin : simpleSettings.range_min = 0 := rfl
  have hmax : simpleSettings.range_max = 100 := rfl
  refine ⟨?_, rfl⟩
  exact noiseless_measurement.2 simpleSettings constWorld zeroDraws
    ⟨0, 0, 0⟩ ⟨0, 1, 0⟩ 0 0 simpleHit rfl rfl rfl
    (by rw [simpleHit_dist, hmin]; norm_num)
    (by rw [simpleHit_dist, hmax]; norm_num)

/-! ### C9: distance and intensity invariants -/

theorem applyNoise_nonneg (s : Settings) (dw : Draws) (d : ℝ) (hd : 0 ≤ d) :
    0 ≤ applyNoiseToDistance s dw d := by
  rw [applyNoiseToDistance]
  split
  · exact hd
  · exact le_max_left 0 _

theorem calculateIntensity_bounds (s : Settings) (d : ℝ) (hit : HitInfo)
    (rd : Vec3) :
    0 ≤ calculateIntensity s d hit rd ∧ calculateIntensity s d hit rd ≤ 1 := by
  rw [calculateIntensity]
  split
  · norm_num
  · exact ⟨le_min (by norm_num) (le_max_left 0 _), min_le_left _ _⟩

theorem mul_exp_nonneg (a x : ℝ) (ha : 0 ≤ a) : 0 ≤ a * Real.exp x :=
  mul_nonneg ha (Real.exp_pos x).le

theorem mul_exp_le_one (a x : ℝ) (ha1 : a ≤ 1) (hx : x ≤ 0) :
    a * Real.exp x ≤ 1 :=
  mul_le_one₀ ha1 (Real.exp_pos x).le (Real.exp_le_one_iff.mpr hx)

/-- Weather attenuation keeps the distance nonnegative and the intensity
inside `[0, 1]`: rain and fog only multiply intensity by `exp` factors in
`(0, 1]` (the exponents are nonpositive inside the guarded branches), and
the rain pull multiplies the distance by `uniform(0.3, 0.9)`. -/
theorem applyWeather_bounds (s : Settings) (dw : Draws) (d i : ℝ)
    (hd : 0 ≤ d) (hi0 : 0 ≤ i) (hi1 : i ≤ 1) (hrf : 0 ≤ dw.rainFactor) :
    0 ≤ (applyWeather s dw d i).1 ∧ 0 ≤ (applyWeather s dw d i).2.1 ∧
    (applyWeather s dw d i).2.1 ≤ 1 := by
  simp only [applyWeather]
  split_ifs <;> dsimp only <;> refine ⟨?_, ?_, ?_⟩ <;>
    first
      | exact hd
      | exact hi0
      | exact hi1
      | exact mul_nonneg hd hrf
      | exact mul_exp_nonneg _ _ hi0
      | exact mul_exp_nonneg _ _ (mul_exp_nonneg _ _ hi0)
      | exact mul_exp_le_one _ _ hi1 (by nlinarith [mul_nonneg hd hrf])
      | exact mul_exp_le_one _ _ (mul_exp_le_one _ _ hi1 (by nlinarith))
          (by nlinarith [mul_nonneg hd hrf])

/-- C9: every scan point `cast_ray` produces — for any configuration,
noise distribution, falloff kind, and weather toggle — has a nonnegative
distance and an intensity in `[0, 1]`.  The only assumption on the random
draws is that the rain pull factor comes from `uniform(0.3, 0.9)`. -/
theorem scanpoint_invariants (s : Settings)
    (world : Vec3 → Vec3 → Option HitInfo) (dw : Draws) (o d : Vec3)
    (ah av : ℚ) (hrf : 0.3 ≤ dw.rainFactor) (hrf' : dw.rainFactor ≤ 0.9)
    (pt : ScanPoint) (h : castRay s world dw o d ah av = some pt) :
    0 ≤ pt.distance ∧ 0 ≤ pt.intensity ∧ pt.intensity ≤ 1 := by
  simp only [castRay] at h
  set nd := (if s.enable_noise = true ∧ (s.angular_noise_deg : ℝ) > 0
    then dw.jitter d else d) with hnd
  cases hw : world o nd with
  | none =>
      rw [hw] at h
      simp at h
  | some hit =>
      rw [hw] at h
      dsimp only at h
      by_cases hr : (norm3 (sub3 hit.location o) < (s.range_min : ℝ)
          ∨ norm3 (sub3 hit.location o) > (s.range_max : ℝ))
      · rw [if_pos hr] at h
        simp at h
      · rw [if_neg hr] at h
        by_cases hsd : shouldDropout s dw
        · rw [if_pos hsd] at h
          simp at h
        · rw [if_neg hsd] at h
          by_cases hv : (applyWeather s dw
              (applyNoiseToDistance s dw (norm3 (sub3 hit.location o)))
              (calculateIntensity s (norm3 (sub3 hit.location o)) hit nd)).2.2
                = false
          · rw [if_pos hv] at h
            simp at h
          · rw [if_neg hv] at h
            rw [← Option.some.inj h]
            have hd0 : 0 ≤ norm3 (sub3 hit.location o) := norm3_nonneg _
            have hnd0 := applyNoise_nonneg s dw _ hd0
            obtain ⟨hi0, hi1⟩ :=
              calculateIntensity_bounds s (norm3 (sub3 hit.location o)) hit nd
            exact applyWeather_bounds s dw _ _ hnd0 hi0 hi1
              (le_trans (by norm_num) hrf)

/-- C9 witness: the concrete noiseless cast produces a point with
distance `≥ 0` and intensity in `[0, 1]`. -/
theorem scanpoint_invariants_witness :
    0 ≤ simplePoint.distance ∧ 0 ≤ simplePoint.intensity ∧
    simplePoint.intensity ≤ 1 :=
  scanpoint_invariants simpleSettings constWorld zeroDraws ⟨0, 0, 0⟩
    ⟨0, 1, 0⟩ 0 0 (by norm_num [zeroDraws]) (by norm_num [zeroDraws])
    simplePoint simple_cast

/-! ### C10: the scanner only ever emits first returns -/

/-- C10: every scan point carries `return_number = 1`, for every
configuration — in particular regardless of `enable_multi_return` and
`max_returns`: `cast_ray` constructs every point with `return_number=1`
(`scanner_core.py:222`) and `scan` emits only points built by `cast_ray`
(`scanner_core.py:244-247`). -/
theorem return_number_always_one :
    (∀ (s : Settings) (world : Vec3 → Vec3 → Option HitInfo) (dw : Draws)
      (o d : Vec3) (ah av : ℚ) (pt : ScanPoint),
      castRay s world dw o d ah av = some pt → pt.return_number = 1) ∧
    (∀ (s : Settings) (pose : Pose) (world : Vec3 → Vec3 → Option HitInfo)
      (draws : ℕ → Draws) (pt : ScanPoint),
      pt ∈ scanPoints s pose world draws → pt.return_number = 1) := by
  have part1 : ∀ (s : Settings) (world : Vec3 → Vec3 → Option HitInfo)
      (dw : Draws) (o d : Vec3) (ah av : ℚ) (pt : ScanPoint),
      castRay s world dw o d ah av = some pt → pt.return_number = 1 := by
    intro s world dw o d ah av pt h
    simp only [castRay] at h
    set nd := (if s.enable_noise = true ∧ (s.angular_noise_deg : ℝ) > 0
      then dw.jitter d else d) with hnd
    cases hw : world o nd with
    | none =>
        rw [hw] at h
        simp at h
    | some hit =>
        rw [hw] at h
        dsimp only at h
        by_cases hr : (norm3 (sub3 hit.location o) < (s.range_min : ℝ)
            ∨ norm3 (sub3 hit.location o) > (s.range_max : ℝ))
        · rw [if_pos hr] at h
          simp at h
        · rw [if_neg hr] at h
          by_cases hsd : shouldDropout s dw
          · rw [if_pos hsd] at h
            simp at h
          · rw [if_neg hsd] at h
            by_cases hv : (applyWeather s dw
                (applyNoiseToDistance s dw (norm3 (sub3 hit.location o)))
                (calculateIntensity s (norm3 (sub3 hit.location o)) hit nd)).2.2
                  = false
            · rw [if_pos hv] at h
              simp at h
            · rw [if_neg hv] at h
              rw [← Option.some.inj h]
  refine ⟨part1, ?_⟩
  intro s pose world draws pt hmem
  rw [scanPoints] at hmem
  obtain ⟨x, _, hcast⟩ := List.mem_filterMap.mp hmem
  exact part1 s world (draws x.1) pose.origin
    (normalize3 (pose.rotate x.2.2.2)) x.2.1 x.2.2.1 pt hcast

/-- C10 witness: the concrete emitted point has `return_number = 1`. -/
theorem return_number_always_one_witness : simplePoint.return_number = 1 :=
  return_number_always_one.1 simpleSettings constWorld zeroDraws ⟨0, 0, 0⟩
    ⟨0, 1, 0⟩ 0 0 simplePoint simple_cast

/-! ### C8: dropout extremes and emitted-point counts -/

open scoped Classical


theorem length_filterMap_enumFrom {α β : Type _} (f : ℕ × α → Option β)
    (q : α → Bool) (h : ∀ i a, (f (i, a)).isSome = q a) :
    ∀ (l : List α) (n : ℕ),
      ((List.enumFrom n l).filterMap f).length = l.countP q := by
  intro l
  induction l with
  | nil => intro n; rfl
  | cons a t ih =>
      intro n
      rw [List.enumFrom_cons, List.filterMap_cons, List.countP_cons]
      cases hfa : f (n, a) with
      | none =>
          have hq : q a = false := by rw [← h n a, hfa]; rfl
          simp [hq, ih]
      | some b =>
          have hq : q a = true := by rw [← h n a, hfa]; rfl
          simp [hq, ih]

/-- With noise enabled and dropout probability 1, the dropout Bernoulli
trial `random.random() < dropout_prob` succeeds on every draw in `[0, 1)`,
so `cast_ray` never returns a point. -/
theorem castRay_dropout_none (s : Settings)
    (world : Vec3 → Vec3 → Option HitInfo) (dw : Draws) (o d : Vec3)
    (ah av : ℚ) (hn : s.enable_noise = true) (hp : s.dropout_prob = 1)
    (hd1 : dw.dropoutDraw < 1) :
    castRay s world dw o d ah av = none := by
  have hsd : shouldDropout s dw := by
    refine ⟨hn, ?_⟩
    rw [hp]
    push_cast
    exact hd1
  simp only [castRay]
  cases hworld : world o (if s.enable_noise = true ∧
      (s.angular_noise_deg : ℝ) > 0 then dw.jitter d else d) with
  | none => rfl
  | some hit =>
      dsimp only
      by_cases hr : (norm3 (sub3 hit.location o) < (s.range_min : ℝ)
          ∨ norm3 (sub3 hit.location o) > (s.range_max : ℝ))
      · rw [if_pos hr]
      · rw [if_neg hr, if_pos hsd]

/-- With noise and weather disabled, `cast_ray` returns a point exactly
when the ray is accepted by the range gate. -/
theorem castRay_isSome_noiseless (s : Settings)
    (world : Vec3 → Vec3 → Option HitInfo) (dw : Draws) (o d : Vec3)
    (ah av : ℚ) (hn : s.enable_noise = false)
    (hw : s.enable_weather = false) :
    (castRay s world dw o d ah av).isSome
      = decide (accepted s world o d) := by
  have hnd : (if s.enable_noise = true ∧ (s.angular_noise_deg : ℝ) > 0
      then dw.jitter d else d) = d := by
    rw [hn]
    simp
  cases hworld : world o d with
  | none =>
      have hcast : castRay s world dw o d ah av = none := by
        simp only [castRay, hnd, hworld]
      have hacc : ¬ accepted s world o d := by
        rintro ⟨hit, hhit, -⟩
        rw [hworld] at hhit
        exact Option.noConfusion hhit
      simp [hcast, hacc]
  | some hit =>
      by_cases hr : (norm3 (sub3 hit.location o) < (s.range_min : ℝ)
          ∨ norm3 (sub3 hit.location o) > (s.range_max : ℝ))
      · have hcast : castRay s world dw o d ah av = none := by
          simp only [castRay, hnd, hworld]
          rw [if_pos hr]
        have hacc : ¬ accepted s world o d := by
          rintro ⟨hit', hhit', hlo, hhi⟩
          rw [hworld] at hhit'
          cases Option.some.inj hhit'
          rcases hr with h | h
          · linarith
          · linarith
        simp [hcast, hacc]
      · have hcast := castRay_noiseless s world dw o d ah av hit hn hw hworld
          (fun hlt => hr (Or.inl hlt)) (fun hgt => hr (Or.inr hgt))
        push_neg at hr
        have hacc : accepted s world o d := ⟨hit, hworld, hr.1, hr.2⟩
        simp [hcast, hacc]

/-- With noise and weather disabled, the number of emitted points equals
the number of accepted rays, ray for ray. -/
theorem scanPoints_length_noiseless (s : Settings) (pose : Pose)
    (world : Vec3 → Vec3 → Option HitInfo) (draws : ℕ → Draws)
    (hn : s.enable_noise = false) (hw : s.enable_weather = false) :
    (scanPoints s pose world draws).length
      = (rayDirections s).countP
          (fun t => decide (accepted s world pose.origin
            (normalize3 (pose.rotate t.2.2)))) := by
  rw [scanPoints]
  rw [show (rayDirections s).enum = List.enumFrom 0 (rayDirections s) from rfl]
  exact length_filterMap_enumFrom _ _
    (fun i a => castRay_isSome_noiseless s world (draws i) pose.origin
      (normalize3 (pose.rotate a.2.2)) a.1 a.2.1 hn hw)
    (rayDirections s) 0

theorem rayDirections_length_pos (s : Settings) (hfh : 0 < s.fov_h)
    (hrh : 0.01 ≤ s.resolution_h) (hfv : 0 < s.fov_v)
    (hrv : 0.01 ≤ s.resolution_v) : 0 < (rayDirections s).length := by
  obtain ⟨-, hshnn⟩ := hSteps_floor s hfh hrh
  obtain ⟨-, hsvnn⟩ := vSteps_floor s hfv hrv
  rw [rayDirections, List.length_map, angleGrid_length]
  have hh : (hAngles s).length = (hSteps s + 1).toNat := by simp [hAngles]
  have hv : (vAngles s).length = (vSteps s + 1).toNat := by simp [vAngles]
  rw [hh, hv]
  exact Nat.mul_pos (by omega) (by omega)



/-- C8 counterexample: with dropout probability 1.0 but the noise master
toggle disabled, a sweep over a scene in which every ray hits a surface
5 m away emits points — not zero points: `should_dropout` returns `False`
whenever `enable_noise` is off (`scanner_core.py:115-116`), regardless of
`dropout_prob`. -/
theorem dropout_one_counterexample :
    dropSettings.dropout_prob = 1 ∧
    scanPoints dropSettings idPose constWorld (fun _ => zeroDraws) ≠ [] := by
  have hmin : dropSettings.range_min = 0 := rfl
  have hmax : dropSettings.range_max = 100 := rfl
  refine ⟨rfl, ?_⟩
  intro hnil
  have hlen := congrArg List.length hnil
  rw [scanPoints_length_noiseless dropSettings idPose constWorld _ rfl rfl]
    at hlen
  have hall : ∀ t ∈ rayDirections dropSettings,
      (decide (accepted dropSettings constWorld idPose.origin
        (normalize3 (idPose.rotate t.2.2))) : Bool) = true := by
    intro t _
    rw [decide_eq_true_eq]
    have ho : idPose.origin = ⟨0, 0, 0⟩ := rfl
    refine ⟨simpleHit, rfl, ?_, ?_⟩
    · rw [ho, simpleHit_dist, hmin]
      norm_num
    · rw [ho, simpleHit_dist, hmax]
      norm_num
  rw [List.countP_eq_length.mpr (by intro a ha; exact hall a ha)] at hlen
  have hpos : 0 < (rayDirections dropSettings).length :=
    rayDirections_length_pos dropSettings (by norm_num [dropSettings, defaultSettings])
      (by norm_num [dropSettings, defaultSettings])
      (by norm_num [dropSettings, defaultSettings])
      (by norm_num [dropSettings, defaultSettings])
  rw [List.length_nil] at hlen
  omega

/-- C8 (amended): with noise enabled and dropout probability 1, a sweep
emits zero points regardless of geometry (every draw of `random.random()`
lies in `[0, 1)`); with dropout probability 0 — in fact regardless of
`dropout_prob` — noise disabled and weather disabled, the number of
emitted points equals the number of rays accepted by the range gate. -/
theorem dropout_extremes_and_count :
    (∀ (s : Settings) (pose : Pose) (world : Vec3 → Vec3 → Option HitInfo)
      (draws : ℕ → Draws),
      s.enable_noise = true → s.dropout_prob = 1 →
      (∀ j, (draws j).dropoutDraw < 1) →
      scanPoints s pose world draws = []) ∧
    (∀ (s : Settings) (pose : Pose) (world : Vec3 → Vec3 → Option HitInfo)
      (draws : ℕ → Draws),
      s.enable_noise = false → s.enable_weather = false →
      (scanPoints s pose world draws).length
        = (rayDirections s).countP
            (fun t => decide (accepted s world pose.origin
              (normalize3 (pose.rotate t.2.2))))) := by
  constructor
  · intro s pose world draws hn hp hdr
    rw [scanPoints]
    rw [List.filterMap_eq_nil_iff]
    intro x _
    exact castRay_dropout_none s world (draws x.1) pose.origin
      (normalize3 (pose.rotate x.2.2.2)) x.2.1 x.2.2.1 hn hp (hdr x.1)
  · intro s pose world draws hn hw
    exact scanPoints_length_noiseless s pose world draws hn hw

/-- C8 witness: with noise on and dropout probability 1 the concrete
sweep emits no points; with noise and weather off the concrete sweep's
point count equals its accepted-ray count. -/
theorem dropout_extremes_and_count_witness :
    scanPoints { defaultSettings with dropout_prob := 1 } idPose constWorld
      (fun _ => zeroDraws) = [] ∧
    (scanPoints dropSettings idPose constWorld (fun _ => zeroDraws)).length
      = (rayDirections dropSettings).countP
          (fun t => decide (accepted dropSettings constWorld idPose.origin
            (normalize3 (idPose.rotate t.2.2)))) := by
  constructor
  · exact dropout_extremes_and_count.1 _ idPose constWorld _ rfl rfl
      (fun j => by norm_num [zeroDraws])
  · exact dropout_extremes_and_count.2 dropSettings idPose constWorld _ rfl rfl

end LidarScan
